import Mathlib

/-
Verification development for the Color Clash mini-app's wallet-authentication
and reward-claim protocol.

Shallow embedding of:
  * supabase/functions/distribute-reward/index.ts  (the claim-voucher endpoint
    as checked in: the legacy admin-submitted on-chain distribution version)
  * supabase/functions/authenticate-wallet/index.ts
  * contracts/RewardDistributor.sol
  * src/services/blockchainService.ts (claimRewardOnChain tx construction)
  * src/components/RewardClaimedModal.tsx (handleClaim amount pass-through)

Conventions:
  * JS falsiness of a possibly-absent string/number field is modelled by
    jsFalsyStr / jsFalsyInt over Option types (none = absent/undefined/null).
  * keccak256(abi.encodePacked(recipient, amount, nonce)) keys the contract's
    used-nonce ledger; under the ideal (injective) hash model the ledger is
    keyed directly by the (recipient, amount, nonce) triple.
  * ECDSA recovery is an abstract function parameter: the embeddings never
    depend on its implementation, only on which address it returns.
  * uint256 values are Nat; no arithmetic in the modelled paths can overflow
    (Solidity 0.8 checked arithmetic would revert, and the modelled flows
    only compare and move ERC-20 balances bounded by total supply).
-/

namespace ColorClash

/-- JS falsiness of an optional string field: absent, or the empty string. -/
def jsFalsyStr : Option String → Bool
  | none => true
  | some s => s == ""

/-- JS falsiness of an optional numeric field: absent, or zero. -/
def jsFalsyInt : Option Int → Bool
  | none => true
  | some n => n == 0

/-- ASCII lowercasing of one character (the case JS toLowerCase() performs on
hex wallet addresses). -/
def asciiLowerChar (c : Char) : Char :=
  if 65 ≤ c.toNat ∧ c.toNat ≤ 90 then Char.ofNat (c.toNat + 32) else c

/-- JS String.prototype.toLowerCase(), characterwise. -/
def jsToLower (s : String) : String := String.mk (s.data.map asciiLowerChar)

/-- A JSON value as it appears in the edge functions' response bodies. -/
inductive Json where
  | jnull
  | jbool (b : Bool)
  | jnum (n : Int)
  | jstr (s : String)
deriving Repr, DecidableEq

/-- An HTTP response: status code plus JSON object body (ordered key-value pairs,
matching the object literals in the source). -/
structure HttpResponse where
  status : Nat
  body : List (String × Json)
deriving Repr, DecidableEq

/-! ## The claim-voucher endpoint (supabase/functions/distribute-reward/index.ts)

The checked-in file parses `{ walletAddress, rewardAmount, contractAddress,
playerName }`, validates, then (legacy behavior) has the admin wallet submit
`distributeReward(walletAddress, finalPlayerName, rewardAmount)` on-chain and
returns the receipt — it computes no voucher. -/

/-- Request body of the distribute-reward endpoint. -/
structure RewardRequest where
  walletAddress : Option String
  rewardAmount : Option Int
  contractAddress : Option String
  playerName : Option String
deriving Repr, DecidableEq

/-- An interaction with the chain performed by the endpoint while handling a
request: a read-only balance query, or a state-changing `distributeReward`
transaction (which transfers `amount` of the token to `recipient`). -/
inductive ChainAction where
  | balanceQuery (contractAddr : String)
  | distributeTx (contractAddr : String) (recipient : String)
      (playerName : String) (amount : Int)
deriving Repr, DecidableEq

/-- Response body for the missing-fields rejection (HTTP 400). -/
def missingFieldsResp : HttpResponse :=
  { status := 400,
    body := [("success", Json.jbool false),
             ("error", Json.jstr "Missing required fields: walletAddress, rewardAmount, contractAddress")] }

/-- Response body for the amount-range rejection (HTTP 400). -/
def amountRangeResp : HttpResponse :=
  { status := 400,
    body := [("success", Json.jbool false),
             ("error", Json.jstr "Reward amount must be greater than 0")] }

/-- Response body for the invalid-wallet-address rejection (HTTP 400). -/
def invalidAddressResp : HttpResponse :=
  { status := 400,
    body := [("success", Json.jbool false),
             ("error", Json.jstr "Invalid wallet address format")] }

/-- Response body for the missing-admin-key rejection (HTTP 500). -/
def missingKeyResp : HttpResponse :=
  { status := 500,
    body := [("success", Json.jbool false),
             ("error", Json.jstr "Server configuration error: missing admin private key")] }

/-- The distribute-reward edge function handler as checked in under
supabase/functions/distribute-reward/index.ts.

Environment parameters stand for the external collaborators:
`isAddr` is ethers.isAddress; `hasAdminKey` is the presence of the
ADMIN_PRIVATE_KEY env var; `contractBalance`/`updatedBalance` are the results
of the two getContractBalance() calls; `receiptHash`/`receiptBlock`/`receiptGas`
come from the mined transaction receipt. Returns the HTTP response together
with the ordered list of chain interactions the handler performed. -/
def distributeRewardHandler (isAddr : String → Bool) (hasAdminKey : Bool)
    (contractBalance updatedBalance : Int) (receiptHash : String)
    (receiptBlock receiptGas : Nat) (req : RewardRequest) :
    HttpResponse × List ChainAction :=
  if jsFalsyStr req.walletAddress || jsFalsyInt req.rewardAmount
      || jsFalsyStr req.contractAddress then
    (missingFieldsResp, [])
  else
    let wa := req.walletAddress.getD ""
    let amt := req.rewardAmount.getD 0
    let ca := req.contractAddress.getD ""
    if amt ≤ 0 then
      (amountRangeResp, [])
    else if ¬ isAddr wa then
      (invalidAddressResp, [])
    else if ¬ hasAdminKey then
      (missingKeyResp, [])
    else if contractBalance < amt then
      ({ status := 400,
         body := [("success", Json.jbool false),
                  ("error", Json.jstr "Insufficient contract balance"),
                  ("details", Json.jstr ("Contract balance: " ++ toString contractBalance
                      ++ ", Required: " ++ toString amt))] },
       [ChainAction.balanceQuery ca])
    else
      let finalPlayerName :=
        if jsFalsyStr req.playerName then wa.take 8 else req.playerName.getD ""
      ({ status := 200,
         body := [("success", Json.jbool true),
                  ("transactionHash", Json.jstr receiptHash),
                  ("blockNumber", Json.jnum (Int.ofNat receiptBlock)),
                  ("gasUsed", Json.jstr (toString receiptGas)),
                  ("walletAddress", Json.jstr wa),
                  ("playerName", Json.jstr finalPlayerName),
                  ("rewardAmount", Json.jstr (toString amt)),
                  ("contractBalance", Json.jstr (toString updatedBalance))] },
       [ChainAction.balanceQuery ca,
        ChainAction.distributeTx ca wa finalPlayerName amt,
        ChainAction.balanceQuery ca])

/-! ## Client claim flow (blockchainService.ts / RewardClaimedModal.tsx) -/

/-- Arguments of the `claimRewardWithSignature` transaction the client submits. -/
structure ClaimTxArgs where
  recipient : String
  amount : Int
  nonce : String
  signature : String
deriving Repr, DecidableEq

/-- `claimRewardOnChain` from src/services/blockchainService.ts, reduced to the
transaction it submits: after the JS missing-fields truthiness check and the
optional `isNonceUsed` pre-check (`nonceUsed = none` when the check is skipped
for a Farcaster wallet or failed), it calls
`contract.claimRewardWithSignature(recipient, amount, nonce, signature)` with
the request's `amount` passed through unchanged. -/
def claimRewardOnChainTx (nonceUsed : Option Bool) (recipient : String)
    (amount : Int) (nonce signature contractAddress : String) :
    Except String ClaimTxArgs :=
  if recipient == "" || amount == 0 || nonce == "" || signature == ""
      || contractAddress == "" then
    Except.error "Missing required fields: signer, recipient, amount, nonce, signature, contractAddress"
  else
    match nonceUsed with
    | some true => Except.error "This reward has already been claimed"
    | _ => Except.ok ⟨recipient, amount, nonce, signature⟩

/-- `handleClaim` from RewardClaimedModal.tsx, reduced to the on-chain claim it
submits: it passes `reward.amount` (the human-facing roulette amount, e.g. 5000)
to `claimRewardOnChain` as `amount`, together with the voucher fields returned
by the backend. -/
def handleClaimTx (rewardAmount : Int) (walletAddress : String)
    (nonce signature rewardDistributorAddr : String) (nonceUsed : Option Bool) :
    Except String ClaimTxArgs :=
  claimRewardOnChainTx nonceUsed walletAddress rewardAmount nonce signature
    rewardDistributorAddr

/-! ## RewardDistributor.sol -/

/-- Storage and environment of the deployed RewardDistributor contract.
`balances tok holder` is the ERC-20 balance of `holder` in token contract
`tok` (addresses are Nat; 0 is address(0)); `selfAddr` is the distributor's
own address; `usedNonces r a n` is the used-nonce ledger entry for
keccak256(abi.encodePacked(r, a, n)) under the ideal-hash model. -/
structure RDState where
  owner : Nat
  tokenAddr : Nat
  selfAddr : Nat
  paused : Bool
  usedNonces : Nat → Nat → Nat → Bool
  balances : Nat → Nat → Nat

/-- OpenZeppelin ERC-20 `transfer` from the distributor to `toAddr` in the
current ccToken: reverts (none) when the distributor's balance is short,
otherwise moves the amount. -/
def tokenMove (s : RDState) (toAddr amt : Nat) : Option RDState :=
  if s.balances s.tokenAddr s.selfAddr < amt then none
  else
    some { s with balances := fun t h =>
      if t = s.tokenAddr then
        if h = s.selfAddr ∧ h = toAddr then s.balances t h
        else if h = s.selfAddr then s.balances t h - amt
        else if h = toAddr then s.balances t h + amt
        else s.balances t h
      else s.balances t h }

/-- `claimRewardWithSignature(recipient, amount, nonce, signature)`.
`recover r a n sig` abstracts
`ECDSA.recover(toEthSignedMessageHash(keccak256(abi.encodePacked(r, a, n))), sig)`.
Errors are reverts; the check order follows the source (whenNotPaused modifier,
then the requires in order). -/
def claimRewardWithSignature (recover : Nat → Nat → Nat → Nat → Nat)
    (s : RDState) (recipient amount nonce sig : Nat) : Except String RDState :=
  if s.paused then Except.error "Pausable: paused"
  else if recipient = 0 then Except.error "Invalid recipient address"
  else if amount = 0 then Except.error "Amount must be greater than 0"
  else if s.balances s.tokenAddr s.selfAddr < amount then
    Except.error "Insufficient contract balance"
  else if s.usedNonces recipient amount nonce then
    Except.error "Nonce already used"
  else if recover recipient amount nonce sig ≠ s.owner then
    Except.error "Invalid signature"
  else
    match tokenMove
        { s with usedNonces := fun r a n =>
            if r = recipient ∧ a = amount ∧ n = nonce then true
            else s.usedNonces r a n }
        recipient amount with
    | none => Except.error "Token transfer failed"
    | some s2 => Except.ok s2

/-- `distributeReward(recipient, playerName, amount)` (onlyOwner). -/
def distributeReward (s : RDState) (sender recipient : Nat)
    (playerName : String) (amount : Nat) : Except String RDState :=
  if sender ≠ s.owner then Except.error "Ownable: caller is not the owner"
  else if s.paused then Except.error "Pausable: paused"
  else if recipient = 0 then Except.error "Invalid recipient address"
  else if playerName = "" then Except.error "Player name is required"
  else if amount = 0 then Except.error "Amount must be greater than 0"
  else if s.balances s.tokenAddr s.selfAddr < amount then
    Except.error "Insufficient contract balance"
  else
    match tokenMove s recipient amount with
    | none => Except.error "Token transfer failed"
    | some s2 => Except.ok s2

/-- The per-recipient loop body of `batchDistributeReward`. -/
def batchGo (s : RDState) : List (Nat × Nat) → Except String RDState
  | [] => Except.ok s
  | (recipient, amount) :: rest =>
    if recipient = 0 then Except.error "Invalid recipient address"
    else if amount = 0 then Except.error "Amount must be greater than 0"
    else
      match tokenMove s recipient amount with
      | none => Except.error "Token transfer failed"
      | some s2 => batchGo s2 rest

/-- `batchDistributeReward(recipients, amounts)` (onlyOwner). -/
def batchDistributeReward (s : RDState) (sender : Nat)
    (recipients amounts : List Nat) : Except String RDState :=
  if sender ≠ s.owner then Except.error "Ownable: caller is not the owner"
  else if s.paused then Except.error "Pausable: paused"
  else if recipients.length ≠ amounts.length then
    Except.error "Arrays length mismatch"
  else if recipients.length = 0 then Except.error "Empty arrays"
  else if recipients.length > 100 then Except.error "Too many recipients"
  else if s.balances s.tokenAddr s.selfAddr < (amounts.foldl (· + ·) 0) then
    Except.error "Insufficient contract balance"
  else batchGo s (recipients.zip amounts)

/-- `withdrawTokens(amount)` (onlyOwner, not pausable). -/
def withdrawTokens (s : RDState) (sender amount : Nat) : Except String RDState :=
  if sender ≠ s.owner then Except.error "Ownable: caller is not the owner"
  else if amount = 0 then Except.error "Amount must be greater than 0"
  else if s.balances s.tokenAddr s.selfAddr < amount then
    Except.error "Insufficient contract balance"
  else
    match tokenMove s s.owner amount with
    | none => Except.error "Token transfer failed"
    | some s2 => Except.ok s2

/-- `updateTokenAddress(newToken)` (onlyOwner). -/
def updateTokenAddress (s : RDState) (sender newToken : Nat) :
    Except String RDState :=
  if sender ≠ s.owner then Except.error "Ownable: caller is not the owner"
  else if newToken = 0 then Except.error "Invalid token address"
  else if newToken = s.tokenAddr then Except.error "Same token address"
  else Except.ok { s with tokenAddr := newToken }

/-- `pause()` (onlyOwner; OZ `_pause` has whenNotPaused). -/
def pauseContract (s : RDState) (sender : Nat) : Except String RDState :=
  if sender ≠ s.owner then Except.error "Ownable: caller is not the owner"
  else if s.paused then Except.error "Pausable: paused"
  else Except.ok { s with paused := true }

/-- `unpause()` (onlyOwner; OZ `_unpause` has whenPaused). -/
def unpauseContract (s : RDState) (sender : Nat) : Except String RDState :=
  if sender ≠ s.owner then Except.error "Ownable: caller is not the owner"
  else if ¬ s.paused then Except.error "Pausable: not paused"
  else Except.ok { s with paused := false }

/-- `isNonceUsed(recipient, amount, nonce)` (view). -/
def isNonceUsed (s : RDState) (recipient amount nonce : Nat) : Bool :=
  s.usedNonces recipient amount nonce

/-- Any transaction that can touch the RewardDistributor's state after
deployment: each external function of the contract, plus an environment
action that arbitrarily rewrites one ERC-20 balance (funding the pool,
third-party token transfers, minting — none of which involve the
distributor's own storage). -/
inductive RDOp where
  | opClaim (recipient amount nonce sig : Nat)
  | opDistribute (sender recipient : Nat) (playerName : String) (amount : Nat)
  | opBatch (sender : Nat) (recipients amounts : List Nat)
  | opWithdraw (sender amount : Nat)
  | opUpdateToken (sender newToken : Nat)
  | opPause (sender : Nat)
  | opUnpause (sender : Nat)
  | opEnvSetBalance (tok holder newBal : Nat)

/-- Execute one transaction: a revert (error) leaves the state unchanged. -/
def applyOp (recover : Nat → Nat → Nat → Nat → Nat) (s : RDState) :
    RDOp → RDState
  | RDOp.opClaim r a n sig =>
    match claimRewardWithSignature recover s r a n sig with
    | Except.ok s2 => s2
    | Except.error _ => s
  | RDOp.opDistribute sender r pn a =>
    match distributeReward s sender r pn a with
    | Except.ok s2 => s2
    | Except.error _ => s
  | RDOp.opBatch sender rs as =>
    match batchDistributeReward s sender rs as with
    | Except.ok s2 => s2
    | Except.error _ => s
  | RDOp.opWithdraw sender a =>
    match withdrawTokens s sender a with
    | Except.ok s2 => s2
    | Except.error _ => s
  | RDOp.opUpdateToken sender t =>
    match updateTokenAddress s sender t with
    | Except.ok s2 => s2
    | Except.error _ => s
  | RDOp.opPause sender =>
    match pauseContract s sender with
    | Except.ok s2 => s2
    | Except.error _ => s
  | RDOp.opUnpause sender =>
    match unpauseContract s sender with
    | Except.ok s2 => s2
    | Except.error _ => s
  | RDOp.opEnvSetBalance tok holder newBal =>
    { s with balances := fun t h =>
        if t = tok ∧ h = holder then newBal else s.balances t h }

/-- Execute a sequence of transactions in order. -/
def applyOps (recover : Nat → Nat → Nat → Nat → Nat) (s : RDState)
    (ops : List RDOp) : RDState :=
  ops.foldl (applyOp recover) s

/-- Modelled from the spec: the voucher-issuing body of the claim-voucher
service (nonce generation, base-unit conversion, hashing, signing) is not
present under src/ — the checked-in distribute-reward file is the legacy
on-chain-distribution version, and only the client callers and the repository's
"Token Decimal Precision Fix" document describe the voucher version. Per the
spec, for an 18-decimal token the hashed/signed amount is the base-unit
quantity `rewardAmount * 10^18` (ethers.parseUnits(rewardAmount, 18)). -/
def voucherSignedAmountSpec (rewardAmount : Int) : Int :=
  rewardAmount * 10 ^ 18

/-! ## authenticate-wallet (supabase/functions/authenticate-wallet/index.ts) -/

/-- Request body of the authenticate-wallet endpoint. -/
structure AuthRequest where
  walletAddress : Option String
  signedMessage : Option String
  message : Option String
  timestamp : Option Int
  farcasterFid : Option String
  authUsername : Option String
deriving Repr, DecidableEq

/-- A row of the user_profiles table (columns the handler touches; updated_at
is not modelled). `none` in a social column models SQL NULL, `some ""` the
empty string — both are JS-falsy. -/
structure UserProfile where
  id : Nat
  walletAddressStored : String
  farcasterFid : Option String
  profileUsername : Option String
  totalGames : Nat
  totalWins : Nat
  totalTokensWon : Nat
deriving Repr, DecidableEq

/-- The decoded content of a session token: `btoa(JSON.stringify(sessionData))`
is injective on this record, so the token is modelled by the record itself. -/
structure SessionTokenData where
  userId : Nat
  walletAddress : String
  timestamp : Int
  expiresAt : Int
deriving Repr, DecidableEq

/-- A row of the auth_sessions table. -/
structure SessionRow where
  userId : Nat
  sessionToken : SessionTokenData
  walletAddressStored : String
  expiresAt : Int
deriving Repr, DecidableEq

/-- The backend store: the two tables the handler touches, plus the id the
database would assign to the next inserted profile. -/
structure Db where
  profiles : List UserProfile
  sessions : List SessionRow
  nextId : Nat
deriving Repr, DecidableEq

/-- Which database calls fail during one request (supabase-js reports these as
`{ error }` results without throwing). -/
structure DbBehavior where
  fetchFails : Bool
  updateFails : Bool
  insertProfileFails : Bool
  insertSessionFails : Bool
deriving Repr, DecidableEq

/-- All database calls succeed. -/
def behOk : DbBehavior := ⟨false, false, false, false⟩

/-- Outcome of one authenticate-wallet request. -/
inductive AuthOutcome where
  | failure (status : Nat) (error : String)
  | success (sessionToken : SessionTokenData) (userProfile : UserProfile)
deriving Repr, DecidableEq

/-- `fiveMinutes` from the source (5 * 60 * 1000 ms). -/
def fiveMinutesMs : Nat := 5 * 60 * 1000

/-- Session lifetime from the source (7 * 24 * 60 * 60 * 1000 ms). -/
def sessionLifetimeMs : Int := 7 * 24 * 60 * 60 * 1000

/-- The update applied to a user_profiles row by
`.update(updateData).eq("id", existingUser.id)`: social columns are included
in updateData only when the request value is truthy and the fetched row's
value is falsy (first-write-wins backfill). -/
def applyProfileUpdate (req : AuthRequest) (existingUser q : UserProfile) :
    UserProfile :=
  { q with
    farcasterFid :=
      if jsFalsyStr req.farcasterFid = false
          ∧ jsFalsyStr existingUser.farcasterFid = true then
        req.farcasterFid
      else q.farcasterFid,
    profileUsername :=
      if jsFalsyStr req.authUsername = false
          ∧ jsFalsyStr existingUser.profileUsername = true then
        req.authUsername
      else q.profileUsername }

/-- Tail of the handler shared by both profile paths: build sessionData, insert
the session row (the source does not check this insert's result), return 200. -/
def finishSession (now : Int) (beh : DbBehavior) (db : Db)
    (normalizedAddress : String) (userProfile : UserProfile) :
    AuthOutcome × Db :=
  let tok : SessionTokenData :=
    { userId := userProfile.id, walletAddress := normalizedAddress,
      timestamp := now, expiresAt := now + sessionLifetimeMs }
  let db2 :=
    if beh.insertSessionFails then db
    else { db with sessions := db.sessions ++
      [{ userId := userProfile.id, sessionToken := tok,
         walletAddressStored := normalizedAddress,
         expiresAt := tok.expiresAt }] }
  (AuthOutcome.success tok userProfile, db2)

/-- The authenticate-wallet edge function handler.
`recoverAddr msg sig` abstracts `ethers.verifyMessage(message, signedMessage)`;
it returns none when verifyMessage throws (malformed signature). `now` is
`Date.now()` at the start of the request. Returns the outcome and the store
after the request. -/
def authenticateWallet (recoverAddr : String → String → Option String)
    (now : Int) (beh : DbBehavior) (db : Db) (req : AuthRequest) :
    AuthOutcome × Db :=
  if jsFalsyStr req.walletAddress || jsFalsyStr req.signedMessage
      || jsFalsyStr req.message || jsFalsyInt req.timestamp then
    (AuthOutcome.failure 400 "Missing required fields", db)
  else
    let wa := req.walletAddress.getD ""
    let sig := req.signedMessage.getD ""
    let msg := req.message.getD ""
    let ts := req.timestamp.getD 0
    let normalizedAddress := jsToLower wa
    if (now - ts).natAbs > fiveMinutesMs then
      (AuthOutcome.failure 401 "Signature expired. Please try again.", db)
    else
      match recoverAddr msg sig with
      | none =>
        (AuthOutcome.failure 401 "Signature verification failed", db)
      | some recovered =>
        if jsToLower recovered ≠ normalizedAddress then
          (AuthOutcome.failure 401 "Invalid signature", db)
        else if beh.fetchFails then
          (AuthOutcome.failure 500 "Database error", db)
        else
          match db.profiles.find?
              (fun p => p.walletAddressStored == normalizedAddress) with
          | some existingUser =>
            if beh.updateFails then
              finishSession now beh db normalizedAddress existingUser
            else
              finishSession now beh
                { db with profiles := db.profiles.map (fun q =>
                    if q.id = existingUser.id then
                      applyProfileUpdate req existingUser q
                    else q) }
                normalizedAddress (applyProfileUpdate req existingUser existingUser)
          | none =>
            if beh.insertProfileFails then
              (AuthOutcome.failure 500 "Failed to create user profile", db)
            else
              let newUser : UserProfile :=
                { id := db.nextId, walletAddressStored := normalizedAddress,
                  farcasterFid := req.farcasterFid,
                  profileUsername := req.authUsername,
                  totalGames := 0, totalWins := 0, totalTokensWon := 0 }
              finishSession now beh
                { db with
                  profiles := db.profiles ++ [newUser]
                  nextId := db.nextId + 1 }
                normalizedAddress newUser

/-! ## Concrete inputs for the reward-endpoint theorems -/

/-- A wallet address used as concrete input. -/
def wa0 : String := "0x1234567890123456789012345678901234567890"

/-- A reward-distributor contract address used as concrete input. -/
def ca0 : String := "0x2345678901234567890123456789012345678901"

/-- An address validator accepting everything (stands for ethers.isAddress on
well-formed addresses). -/
def isAddrAll : String → Bool := fun _ => true

/-- A well-formed claim request for a 5000-token reward. -/
def req5000 : RewardRequest := ⟨some wa0, some 5000, some ca0, some "player"⟩

/-- C1: the spec requires the signed and on-chain-submitted amount for a
5000-token reward on an 18-decimal token to be 5000 * 10^18 base units. The
checked-in claim-voucher endpoint instead submits a distributeReward
transaction carrying the raw human amount 5000, and the client claim flow
(handleClaim → claimRewardOnChain) submits claimRewardWithSignature with the
raw amount 5000 as well, while the spec-modelled voucher signs 5000 * 10^18;
the two quantities differ. -/
theorem reward_claim_flow_submits_raw_amount :
    (distributeRewardHandler isAddrAll true 1000000 995000 "0xabc" 100 21000
        req5000).2 =
      [ChainAction.balanceQuery ca0,
       ChainAction.distributeTx ca0 wa0 "player" 5000,
       ChainAction.balanceQuery ca0]
    ∧ handleClaimTx 5000 wa0 "12345" "0xsig" ca0 (some false) =
        Except.ok ⟨wa0, 5000, "12345", "0xsig"⟩
    ∧ voucherSignedAmountSpec 5000 = 5000 * 10 ^ 18
    ∧ (5000 : Int) ≠ 5000 * 10 ^ 18 :=
  ⟨rfl, rfl, rfl, by decide⟩

/-- C2: the spec requires every successful claim-voucher response to contain
success: true, a nonce, a signature, a messageHash, and rewardAmount echoed as
a string. A successful call of the checked-in endpoint does return
success: true with rewardAmount as the string "5000", but its body has no
nonce, signature, or messageHash key at all. -/
theorem reward_success_response_missing_voucher_fields :
    ((distributeRewardHandler isAddrAll true 1000000 995000 "0xabc" 100 21000
        req5000).1).status = 200
    ∧ ((distributeRewardHandler isAddrAll true 1000000 995000 "0xabc" 100 21000
        req5000).1).body.lookup "success" = some (Json.jbool true)
    ∧ ((distributeRewardHandler isAddrAll true 1000000 995000 "0xabc" 100 21000
        req5000).1).body.lookup "rewardAmount" = some (Json.jstr "5000")
    ∧ (((distributeRewardHandler isAddrAll true 1000000 995000 "0xabc" 100 21000
        req5000).1).body.map Prod.fst).contains "nonce" = false
    ∧ (((distributeRewardHandler isAddrAll true 1000000 995000 "0xabc" 100 21000
        req5000).1).body.map Prod.fst).contains "signature" = false
    ∧ (((distributeRewardHandler isAddrAll true 1000000 995000 "0xabc" 100 21000
        req5000).1).body.map Prod.fst).contains "messageHash" = false :=
  ⟨rfl, rfl, rfl, rfl, rfl, rfl⟩

/-- C3: the spec says voucher issuance has no side effects beyond the signature
computation — no token transfer and no on-chain transaction. A successful call
of the checked-in claim-voucher endpoint performs a state-changing
distributeReward transaction (a token transfer of the full amount) before
responding. -/
theorem reward_endpoint_submits_onchain_transfer :
    ((distributeRewardHandler isAddrAll true 1000000 995000 "0xabc" 100 21000
        req5000).1).status = 200
    ∧ ChainAction.distributeTx ca0 wa0 "player" 5000 ∈
        (distributeRewardHandler isAddrAll true 1000000 995000 "0xabc" 100 21000
          req5000).2 :=
  ⟨rfl, by decide⟩

/-- C10: in the checked-in claim-voucher endpoint, a request with
rewardAmount = 0 is caught by the JS-truthiness missing-fields check (HTTP 400,
"Missing required fields"), the "Reward amount must be greater than 0" error is
reachable only for strictly negative amounts, and a request without a
contractAddress field is likewise rejected by the missing-fields check. -/
theorem reward_validation_zero_and_contract_field
    (isAddr : String → Bool) (hasAdminKey : Bool)
    (contractBalance updatedBalance : Int) (receiptHash : String)
    (receiptBlock receiptGas : Nat) :
    (∀ wa ca pn, (distributeRewardHandler isAddr hasAdminKey contractBalance
        updatedBalance receiptHash receiptBlock receiptGas
        ⟨wa, some 0, ca, pn⟩).1 = missingFieldsResp)
    ∧ (∀ req : RewardRequest,
        (distributeRewardHandler isAddr hasAdminKey contractBalance
          updatedBalance receiptHash receiptBlock receiptGas req).1 =
            amountRangeResp →
        ∃ a, req.rewardAmount = some a ∧ a < 0)
    ∧ (∀ wa amt pn, (distributeRewardHandler isAddr hasAdminKey contractBalance
        updatedBalance receiptHash receiptBlock receiptGas
        ⟨wa, amt, none, pn⟩).1 = missingFieldsResp) := by
  refine ⟨?_, ?_, ?_⟩
  · intro wa ca pn
    simp [distributeRewardHandler, jsFalsyInt]
  · intro req h
    unfold distributeRewardHandler at h
    by_cases hmiss : (jsFalsyStr req.walletAddress || jsFalsyInt req.rewardAmount
        || jsFalsyStr req.contractAddress) = true
    · rw [if_pos hmiss] at h
      simp [missingFieldsResp, amountRangeResp] at h
    · rw [if_neg hmiss] at h
      simp only [Bool.or_eq_true, not_or] at hmiss
      obtain ⟨⟨hwa, hamt⟩, hca⟩ := hmiss
      obtain ⟨a, ha⟩ : ∃ a, req.rewardAmount = some a := by
        cases hv : req.rewardAmount with
        | none => rw [hv] at hamt; simp [jsFalsyInt] at hamt
        | some a => exact ⟨a, rfl⟩
      have hane : a ≠ 0 := by
        intro h0
        rw [ha, h0] at hamt
        simp [jsFalsyInt] at hamt
      rw [ha] at h
      simp only [Option.getD_some] at h
      by_cases hle : a ≤ 0
      · exact ⟨a, ha, lt_of_le_of_ne hle hane⟩
      · rw [if_neg hle] at h
        exfalso
        by_cases h1 : ¬ isAddr (req.walletAddress.getD "")
        · rw [if_pos h1] at h
          simp [invalidAddressResp, amountRangeResp] at h
        · rw [if_neg h1] at h
          by_cases h2 : ¬ hasAdminKey
          · rw [if_pos h2] at h
            simp [missingKeyResp, amountRangeResp] at h
          · rw [if_neg h2] at h
            by_cases h3 : contractBalance < a
            · rw [if_pos h3] at h
              simp [amountRangeResp] at h
            · rw [if_neg h3] at h
              simp [amountRangeResp] at h
  · intro wa amt pn
    simp [distributeRewardHandler, jsFalsyStr]

/-- C10 witness: the zero-amount branch of the theorem evaluated at a concrete
request. -/
theorem reward_validation_zero_and_contract_field_witness :
    (distributeRewardHandler (fun _ => true) true 0 0 "" 0 0
        ⟨some "0xw", some 0, some "0xc", none⟩).1 = missingFieldsResp :=
  (reward_validation_zero_and_contract_field (fun _ => true) true 0 0 "" 0 0).1
    (some "0xw") (some "0xc") none

/-! ## Replay protection of the RewardDistributor (C4) -/

/-- A successful ERC-20 transfer leaves the used-nonce ledger untouched. -/
theorem tokenMove_ok_usedNonces (s : RDState) (toAddr amt : Nat) (s2 : RDState)
    (h : tokenMove s toAddr amt = some s2) : s2.usedNonces = s.usedNonces := by
  unfold tokenMove at h
  split at h
  · exact Option.noConfusion h
  · injection h with h2
    rw [← h2]

/-- A successful claim sets exactly the claimed triple's ledger entry. -/
theorem claim_ok_usedNonces (recover : Nat → Nat → Nat → Nat → Nat)
    (s : RDState) (r' a' n' sig : Nat) (s2 : RDState)
    (hc : claimRewardWithSignature recover s r' a' n' sig = Except.ok s2)
    (r a n : Nat) :
    s2.usedNonces r a n =
      if r = r' ∧ a = a' ∧ n = n' then true else s.usedNonces r a n := by
  unfold claimRewardWithSignature at hc
  repeat' split at hc <;> try exact Except.noConfusion hc
  rename_i s3 heq
  injection hc with hc2
  rw [← hc2, tokenMove_ok_usedNonces _ _ _ _ heq]

/-- A successful admin distribution leaves the ledger untouched. -/
theorem distribute_ok_usedNonces (s : RDState) (sender recipient : Nat)
    (playerName : String) (amount : Nat) (s2 : RDState)
    (hc : distributeReward s sender recipient playerName amount = Except.ok s2) :
    s2.usedNonces = s.usedNonces := by
  unfold distributeReward at hc
  repeat' split at hc <;> try exact Except.noConfusion hc
  rename_i s3 heq
  injection hc with hc2
  rw [← hc2, tokenMove_ok_usedNonces _ _ _ _ heq]

/-- The batch loop leaves the ledger untouched. -/
theorem batchGo_usedNonces (l : List (Nat × Nat)) : ∀ s s2 : RDState,
    batchGo s l = Except.ok s2 → s2.usedNonces = s.usedNonces := by
  induction l with
  | nil =>
    intro s s2 h
    unfold batchGo at h
    injection h with h2
    rw [← h2]
  | cons p rest ih =>
    intro s s2 h
    obtain ⟨rp, ap⟩ := p
    unfold batchGo at h
    repeat' split at h <;> try exact Except.noConfusion h
    rename_i s3 heq
    rw [ih s3 s2 h, tokenMove_ok_usedNonces _ _ _ _ heq]

/-- A successful batch distribution leaves the ledger untouched. -/
theorem batch_ok_usedNonces (s : RDState) (sender : Nat)
    (recipients amounts : List Nat) (s2 : RDState)
    (hc : batchDistributeReward s sender recipients amounts = Except.ok s2) :
    s2.usedNonces = s.usedNonces := by
  unfold batchDistributeReward at hc
  repeat' split at hc <;> try exact Except.noConfusion hc
  exact batchGo_usedNonces _ _ _ hc

/-- A successful owner withdrawal leaves the ledger untouched. -/
theorem withdraw_ok_usedNonces (s : RDState) (sender amount : Nat)
    (s2 : RDState) (hc : withdrawTokens s sender amount = Except.ok s2) :
    s2.usedNonces = s.usedNonces := by
  unfold withdrawTokens at hc
  repeat' split at hc <;> try exact Except.noConfusion hc
  rename_i s3 heq
  injection hc with hc2
  rw [← hc2, tokenMove_ok_usedNonces _ _ _ _ heq]

/-- No transaction ever clears a set ledger entry. -/
theorem applyOp_usedNonces_mono (recover : Nat → Nat → Nat → Nat → Nat)
    (s : RDState) (op : RDOp) (r a n : Nat)
    (h : s.usedNonces r a n = true) :
    (applyOp recover s op).usedNonces r a n = true := by
  cases op with
  | opClaim r' a' n' sig =>
    simp only [applyOp]
    cases hc : claimRewardWithSignature recover s r' a' n' sig with
    | error e => exact h
    | ok s2 =>
      rw [claim_ok_usedNonces recover s r' a' n' sig s2 hc r a n]
      split
      · rfl
      · exact h
  | opDistribute sender r' pn a' =>
    simp only [applyOp]
    cases hc : distributeReward s sender r' pn a' with
    | error e => exact h
    | ok s2 => rw [distribute_ok_usedNonces _ _ _ _ _ _ hc]; exact h
  | opBatch sender rs as =>
    simp only [applyOp]
    cases hc : batchDistributeReward s sender rs as with
    | error e => exact h
    | ok s2 => rw [batch_ok_usedNonces _ _ _ _ _ hc]; exact h
  | opWithdraw sender a' =>
    simp only [applyOp]
    cases hc : withdrawTokens s sender a' with
    | error e => exact h
    | ok s2 => rw [withdraw_ok_usedNonces _ _ _ _ hc]; exact h
  | opUpdateToken sender t =>
    simp only [applyOp]
    cases hc : updateTokenAddress s sender t with
    | error e => exact h
    | ok s2 =>
      unfold updateTokenAddress at hc
      repeat' split at hc <;> try exact Except.noConfusion hc
      injection hc with hc2
      rw [← hc2]
      exact h
  | opPause sender =>
    simp only [applyOp]
    cases hc : pauseContract s sender with
    | error e => exact h
    | ok s2 =>
      unfold pauseContract at hc
      repeat' split at hc <;> try exact Except.noConfusion hc
      injection hc with hc2
      rw [← hc2]
      exact h
  | opUnpause sender =>
    simp only [applyOp]
    cases hc : unpauseContract s sender with
    | error e => exact h
    | ok s2 =>
      unfold unpauseContract at hc
      repeat' split at hc <;> try exact Except.noConfusion hc
      injection hc with hc2
      rw [← hc2]
      exact h
  | opEnvSetBalance tok holder newBal =>
    simp only [applyOp]
    exact h

/-- No sequence of transactions ever clears a set ledger entry. -/
theorem applyOps_usedNonces_mono (recover : Nat → Nat → Nat → Nat → Nat)
    (ops : List RDOp) : ∀ s : RDState, ∀ r a n : Nat,
    s.usedNonces r a n = true →
    (applyOps recover s ops).usedNonces r a n = true := by
  induction ops with
  | nil => intro s r a n h; exact h
  | cons op rest ih =>
    intro s r a n h
    exact ih (applyOp recover s op) r a n
      (applyOp_usedNonces_mono recover s op r a n h)

/-- A claim whose triple is already in the ledger always reverts. -/
theorem claimReward_used_nonce_reverts (recover : Nat → Nat → Nat → Nat → Nat)
    (t : RDState) (r a n sig : Nat) (hused : t.usedNonces r a n = true) :
    ∃ msg, claimRewardWithSignature recover t r a n sig = Except.error msg := by
  unfold claimRewardWithSignature
  repeat' split <;> try exact ⟨_, rfl⟩

/-- C4: once claimRewardWithSignature succeeds for a (recipient, amount, nonce)
triple, that triple's used-nonce ledger entry is set, stays set across any
sequence of later transactions against the contract (including environment
token movements), and every later claimRewardWithSignature call with the same
triple reverts — the voucher can never be redeemed twice. -/
theorem claim_nonce_replay_protected (recover : Nat → Nat → Nat → Nat → Nat)
    (s s2 : RDState) (r a n sig : Nat)
    (h : claimRewardWithSignature recover s r a n sig = Except.ok s2)
    (ops : List RDOp) (sig2 : Nat) :
    s2.usedNonces r a n = true
    ∧ (applyOps recover s2 ops).usedNonces r a n = true
    ∧ ∃ msg, claimRewardWithSignature recover (applyOps recover s2 ops)
        r a n sig2 = Except.error msg := by
  have h1 : s2.usedNonces r a n = true := by
    rw [claim_ok_usedNonces recover s r a n sig s2 h r a n]
    simp
  have h2 := applyOps_usedNonces_mono recover ops s2 r a n h1
  exact ⟨h1, h2, claimReward_used_nonce_reverts recover _ r a n sig2 h2⟩

/-- A concrete recovery oracle: signature 7 authorizes the triple (5, 10, 42)
for owner address 1. -/
def rec0 : Nat → Nat → Nat → Nat → Nat := fun r a n sig =>
  if r = 5 ∧ a = 10 ∧ n = 42 ∧ sig = 7 then 1 else 0

/-- A concrete deployed state: owner 1, token 2, distributor 3, unpaused,
empty ledger, every balance 100. -/
def rdS0 : RDState :=
  { owner := 1, tokenAddr := 2, selfAddr := 3, paused := false,
    usedNonces := fun _ _ _ => false, balances := fun _ _ => 100 }

/-- The state after the successful concrete claim of (5, 10, 42). -/
def rdS1 : RDState :=
  match claimRewardWithSignature rec0 rdS0 5 10 42 7 with
  | Except.ok s => s
  | Except.error _ => rdS0

/-- C4 witness: the concrete claim of (5, 10, 42) succeeds, and after a pause
and unpause the same triple still reverts. -/
theorem claim_nonce_replay_protected_witness :
    rdS1.usedNonces 5 10 42 = true
    ∧ (applyOps rec0 rdS1 [RDOp.opPause 1, RDOp.opUnpause 1]).usedNonces 5 10 42
        = true
    ∧ ∃ msg, claimRewardWithSignature rec0
        (applyOps rec0 rdS1 [RDOp.opPause 1, RDOp.opUnpause 1]) 5 10 42 9
        = Except.error msg :=
  claim_nonce_replay_protected rec0 rdS0 rdS1 5 10 42 7 rfl
    [RDOp.opPause 1, RDOp.opUnpause 1] 9

/-! ## Authentication theorems -/

/-- C6: with all required fields present, authenticate rejects with the
challenge-expired error (HTTP 401, "Signature expired. Please try again.")
exactly when the absolute difference between the server's current time and the
submitted timestamp exceeds five minutes (300000 ms); inside the window the
freshness check passes, whichever side of now the timestamp lies on. -/
theorem auth_freshness_boundary (recoverAddr : String → String → Option String)
    (now ts : Int) (beh : DbBehavior) (db : Db) (wa sig msg : String)
    (fid un : Option String) (hwa : wa ≠ "") (hsig : sig ≠ "") (hmsg : msg ≠ "")
    (hts : ts ≠ 0) :
    ((authenticateWallet recoverAddr now beh db
        ⟨some wa, some sig, some msg, some ts, fid, un⟩).1 =
      AuthOutcome.failure 401 "Signature expired. Please try again.")
    ↔ (now - ts).natAbs > 300000 := by
  unfold authenticateWallet
  have h1 : (jsFalsyStr (some wa) || jsFalsyStr (some sig) || jsFalsyStr (some msg)
      || jsFalsyInt (some ts)) = false := by
    simp [jsFalsyStr, jsFalsyInt, hwa, hsig, hmsg, hts]
  rw [if_neg (by simp [h1])]
  simp only [Option.getD_some]
  by_cases hfresh : (now - ts).natAbs > fiveMinutesMs
  · rw [if_pos hfresh]
    simpa [fiveMinutesMs] using hfresh
  · rw [if_neg hfresh]
    have hfresh2 : ¬ (now - ts).natAbs > 300000 := by
      simpa [fiveMinutesMs] using hfresh
    simp only [hfresh2, iff_false]
    intro hE
    repeat' split at hE
    all_goals simp_all [finishSession]

/-- C6 witness: at now = 1000000, a timestamp 300001 ms in the past is
rejected as expired, while one 299999 ms in the past passes the freshness
check. -/
theorem auth_freshness_boundary_witness :
    ((authenticateWallet (fun _ _ => none) 1000000 behOk ⟨[], [], 1⟩
        ⟨some "0xAB", some "0xSIG", some "hello", some (1000000 - 300001),
         none, none⟩).1 =
      AuthOutcome.failure 401 "Signature expired. Please try again.")
    ∧ ¬ ((authenticateWallet (fun _ _ => none) 1000000 behOk ⟨[], [], 1⟩
        ⟨some "0xAB", some "0xSIG", some "hello", some (1000000 - 299999),
         none, none⟩).1 =
      AuthOutcome.failure 401 "Signature expired. Please try again.") :=
  ⟨(auth_freshness_boundary (fun _ _ => none) 1000000 (1000000 - 300001) behOk
      ⟨[], [], 1⟩ "0xAB" "0xSIG" "hello" none none (by decide) (by decide)
      (by decide) (by decide)).mpr (by decide),
   fun h =>
    absurd ((auth_freshness_boundary (fun _ _ => none) 1000000 (1000000 - 299999)
      behOk ⟨[], [], 1⟩ "0xAB" "0xSIG" "hello" none none (by decide) (by decide)
      (by decide) (by decide)).mp h) (by decide)⟩

/-- C5: with all fields present and a fresh timestamp, authenticate succeeds
only if the address recovered from (message, signature) lowercases to the
lowercased walletAddress; when a well-formed signature recovers to any other
address the request is rejected with the "Invalid signature" error and HTTP
401, and the store is left unchanged (no identity or session row created). -/
theorem auth_rejects_mismatched_signature
    (recoverAddr : String → String → Option String) (now ts : Int)
    (beh : DbBehavior) (db : Db) (wa sig msg : String) (fid un : Option String)
    (hwa : wa ≠ "") (hsig : sig ≠ "") (hmsg : msg ≠ "") (hts : ts ≠ 0)
    (hfresh : ¬ (now - ts).natAbs > 300000) :
    (∀ r, recoverAddr msg sig = some r → jsToLower r ≠ jsToLower wa →
      authenticateWallet recoverAddr now beh db
        ⟨some wa, some sig, some msg, some ts, fid, un⟩ =
      (AuthOutcome.failure 401 "Invalid signature", db))
    ∧ (∀ tok p, (authenticateWallet recoverAddr now beh db
          ⟨some wa, some sig, some msg, some ts, fid, un⟩).1 =
        AuthOutcome.success tok p →
      ∃ r, recoverAddr msg sig = some r ∧ jsToLower r = jsToLower wa) := by
  have h1 : (jsFalsyStr (some wa) || jsFalsyStr (some sig) || jsFalsyStr (some msg)
      || jsFalsyInt (some ts)) = false := by
    simp [jsFalsyStr, jsFalsyInt, hwa, hsig, hmsg, hts]
  have hfresh2 : ¬ (now - ts).natAbs > fiveMinutesMs := by
    simpa [fiveMinutesMs] using hfresh
  constructor
  · intro r hr hne
    unfold authenticateWallet
    rw [if_neg (by simp [h1])]
    simp only [Option.getD_some]
    rw [if_neg hfresh2, hr]
    simp only []
    rw [if_pos hne]
  · intro tok p hE
    unfold authenticateWallet at hE
    rw [if_neg (by simp [h1])] at hE
    simp only [Option.getD_some] at hE
    rw [if_neg hfresh2] at hE
    cases hr : recoverAddr msg sig with
    | none => rw [hr] at hE; exact absurd hE (by simp)
    | some r =>
      simp only [hr] at hE
      refine ⟨r, rfl, ?_⟩
      by_cases hne : jsToLower r ≠ jsToLower wa
      · rw [if_pos hne] at hE
        exact absurd hE (by simp)
      · exact not_not.mp hne

/-- C5 witness: a signature recovering to a different address is rejected with
"Invalid signature" and leaves the concrete empty store unchanged. -/
theorem auth_rejects_mismatched_signature_witness :
    authenticateWallet (fun _ _ => some "0xCD") 1000 behOk ⟨[], [], 1⟩
        ⟨some "0xAB", some "0xSIG", some "hello", some 900, none, none⟩ =
      (AuthOutcome.failure 401 "Invalid signature", (⟨[], [], 1⟩ : Db)) :=
  (auth_rejects_mismatched_signature (fun _ _ => some "0xCD") 1000 900 behOk
      ⟨[], [], 1⟩ "0xAB" "0xSIG" "hello" none none (by decide) (by decide)
      (by decide) (by decide) (by decide)).1 "0xCD" rfl (by decide)

/-- find? skips a prefix in which nothing matches. -/
theorem find?_append_none {α : Type} (p : α → Bool) (l1 l2 : List α)
    (h : l1.find? p = none) : (l1 ++ l2).find? p = l2.find? p := by
  induction l1 with
  | nil => simp
  | cons x xs ih =>
    by_cases hx : p x
    · rw [List.find?_cons_of_pos _ hx] at h
      exact Option.noConfusion h
    · rw [List.find?_cons_of_neg _ hx] at h
      rw [List.cons_append, List.find?_cons_of_neg _ hx]
      exact ih h

/-- Fully evaluated new-user success path of the handler: all fields present,
fresh timestamp, matching recovered address, no matching profile row, all
database calls healthy. -/
theorem auth_success_new_user (recoverAddr : String → String → Option String)
    (now ts : Int) (db : Db) (wa sig msg : String) (fid un : Option String)
    (hwa : wa ≠ "") (hsig : sig ≠ "") (hmsg : msg ≠ "") (hts : ts ≠ 0)
    (hfresh : ¬ (now - ts).natAbs > 300000)
    (hrec : ∃ r, recoverAddr msg sig = some r ∧ jsToLower r = jsToLower wa)
    (hfind : db.profiles.find?
        (fun q => q.walletAddressStored == jsToLower wa) = none) :
    authenticateWallet recoverAddr now behOk db
        ⟨some wa, some sig, some msg, some ts, fid, un⟩ =
      (AuthOutcome.success
          ⟨db.nextId, jsToLower wa, now, now + sessionLifetimeMs⟩
          ⟨db.nextId, jsToLower wa, fid, un, 0, 0, 0⟩,
       { profiles := db.profiles ++ [⟨db.nextId, jsToLower wa, fid, un, 0, 0, 0⟩],
         sessions := db.sessions ++
           [⟨db.nextId, ⟨db.nextId, jsToLower wa, now, now + sessionLifetimeMs⟩,
             jsToLower wa, now + sessionLifetimeMs⟩],
         nextId := db.nextId + 1 }) := by
  obtain ⟨r, hr, hrl⟩ := hrec
  unfold authenticateWallet
  rw [if_neg (by simp [jsFalsyStr, jsFalsyInt, hwa, hsig, hmsg, hts])]
  simp only [Option.getD_some]
  rw [if_neg (by simpa [fiveMinutesMs] using hfresh), hr]
  simp only []
  rw [if_neg (by simp [hrl]), if_neg (by decide), hfind]
  simp only []
  rw [if_neg (by decide)]
  simp [finishSession, behOk]

/-- applyProfileUpdate never changes the row id. -/
theorem applyProfileUpdate_id (req : AuthRequest) (e q : UserProfile) :
    (applyProfileUpdate req e q).id = q.id := rfl

/-- Fully evaluated existing-user success path of the handler. -/
theorem auth_success_existing_user
    (recoverAddr : String → String → Option String)
    (now ts : Int) (db : Db) (wa sig msg : String) (fid un : Option String)
    (p : UserProfile)
    (hwa : wa ≠ "") (hsig : sig ≠ "") (hmsg : msg ≠ "") (hts : ts ≠ 0)
    (hfresh : ¬ (now - ts).natAbs > 300000)
    (hrec : ∃ r, recoverAddr msg sig = some r ∧ jsToLower r = jsToLower wa)
    (hfind : db.profiles.find?
        (fun q => q.walletAddressStored == jsToLower wa) = some p) :
    authenticateWallet recoverAddr now behOk db
        ⟨some wa, some sig, some msg, some ts, fid, un⟩ =
      (AuthOutcome.success
          ⟨p.id, jsToLower wa, now, now + sessionLifetimeMs⟩
          (applyProfileUpdate ⟨some wa, some sig, some msg, some ts, fid, un⟩ p p),
       { profiles := db.profiles.map (fun q =>
           if q.id = p.id then
             applyProfileUpdate ⟨some wa, some sig, some msg, some ts, fid, un⟩ p q
           else q),
         sessions := db.sessions ++
           [⟨p.id, ⟨p.id, jsToLower wa, now, now + sessionLifetimeMs⟩,
             jsToLower wa, now + sessionLifetimeMs⟩],
         nextId := db.nextId }) := by
  obtain ⟨r, hr, hrl⟩ := hrec
  unfold authenticateWallet
  rw [if_neg (by simp [jsFalsyStr, jsFalsyInt, hwa, hsig, hmsg, hts])]
  simp only [Option.getD_some]
  rw [if_neg (by simpa [fiveMinutesMs] using hfresh), hr]
  simp only []
  rw [if_neg (by simp [hrl]), if_neg (by decide), hfind]
  simp only []
  rw [if_neg (by decide)]
  simp [finishSession, behOk, applyProfileUpdate_id]

/-- C9: authenticate preserves non-empty social identity fields. If the stored
profile already has a non-empty farcasterFid and username, a later successful
authenticate carrying any social field values returns that profile unchanged
and leaves the profiles table unchanged — social fields are first-write-wins
and are only ever written into currently-empty columns. -/
theorem auth_social_first_write_wins
    (recoverAddr : String → String → Option String) (now ts : Int) (db : Db)
    (wa sig msg : String) (fid2 un2 : Option String) (p : UserProfile)
    (hwa : wa ≠ "") (hsig : sig ≠ "") (hmsg : msg ≠ "") (hts : ts ≠ 0)
    (hfresh : ¬ (now - ts).natAbs > 300000)
    (hrec : ∃ r, recoverAddr msg sig = some r ∧ jsToLower r = jsToLower wa)
    (hfind : db.profiles.find?
        (fun q => q.walletAddressStored == jsToLower wa) = some p)
    (hfid : jsFalsyStr p.farcasterFid = false)
    (hun : jsFalsyStr p.profileUsername = false) :
    (authenticateWallet recoverAddr now behOk db
        ⟨some wa, some sig, some msg, some ts, fid2, un2⟩).1 =
      AuthOutcome.success ⟨p.id, jsToLower wa, now, now + sessionLifetimeMs⟩ p
    ∧ ((authenticateWallet recoverAddr now behOk db
        ⟨some wa, some sig, some msg, some ts, fid2, un2⟩).2).profiles
      = db.profiles := by
  have happ : ∀ q : UserProfile,
      applyProfileUpdate ⟨some wa, some sig, some msg, some ts, fid2, un2⟩ p q
        = q := by
    intro q
    unfold applyProfileUpdate
    rw [if_neg (by simp [hfid]), if_neg (by simp [hun])]
  rw [auth_success_existing_user recoverAddr now ts db wa sig msg fid2 un2 p
    hwa hsig hmsg hts hfresh hrec hfind]
  constructor
  · simp [happ p]
  · simp [happ]

/-- The stored profile used by the C9 witness: socials already set. -/
def pW : UserProfile := ⟨7, "0xab", some "fidA", some "nameA", 3, 1, 500⟩

/-- The store used by the C9 witness. -/
def dbW : Db := ⟨[pW], [], 8⟩

/-- C9 witness: authenticating again with different social fields (fidB, nameB)
returns the stored profile with its original socials and leaves the profiles
table unchanged. -/
theorem auth_social_first_write_wins_witness :
    (authenticateWallet (fun _ _ => some "0xAB") 1000 behOk dbW
        ⟨some "0xAB", some "0xS", some "m", some 900, some "fidB",
         some "nameB"⟩).1 =
      AuthOutcome.success ⟨pW.id, jsToLower "0xAB", 1000, 1000 + sessionLifetimeMs⟩
        pW
    ∧ ((authenticateWallet (fun _ _ => some "0xAB") 1000 behOk dbW
        ⟨some "0xAB", some "0xS", some "m", some 900, some "fidB",
         some "nameB"⟩).2).profiles = dbW.profiles :=
  auth_social_first_write_wins (fun _ _ => some "0xAB") 1000 900 dbW
    "0xAB" "0xS" "m" (some "fidB") (some "nameB") pW
    (by decide) (by decide) (by decide) (by decide) (by decide)
    ⟨"0xAB", rfl, rfl⟩ (by decide) (by decide) (by decide)

/-- C8: two successful authenticate calls whose wallet addresses differ only in
letter case resolve to the identical identity row. Starting from a store with
no row for the address, the first call creates one row keyed by the lowercased
address; the second call (with the differently-cased spelling) returns a
profile with the same id and creates no new profile row. -/
theorem auth_case_insensitive_same_identity
    (recoverAddr : String → String → Option String)
    (now1 now2 ts1 ts2 : Int) (db0 : Db)
    (w1 w2 s1 s2 m1 m2 : String) (f1 u1 f2 u2 : Option String)
    (hw1 : w1 ≠ "") (hs1 : s1 ≠ "") (hm1 : m1 ≠ "") (ht1 : ts1 ≠ 0)
    (hw2 : w2 ≠ "") (hs2 : s2 ≠ "") (hm2 : m2 ≠ "") (ht2 : ts2 ≠ 0)
    (hfresh1 : ¬ (now1 - ts1).natAbs > 300000)
    (hfresh2 : ¬ (now2 - ts2).natAbs > 300000)
    (hcase : jsToLower w1 = jsToLower w2)
    (hrec1 : ∃ r, recoverAddr m1 s1 = some r ∧ jsToLower r = jsToLower w1)
    (hrec2 : ∃ r, recoverAddr m2 s2 = some r ∧ jsToLower r = jsToLower w2)
    (hnew : db0.profiles.find?
        (fun q => q.walletAddressStored == jsToLower w1) = none) :
    ∃ tok1 p1 tok2 p2,
      (authenticateWallet recoverAddr now1 behOk db0
          ⟨some w1, some s1, some m1, some ts1, f1, u1⟩).1
        = AuthOutcome.success tok1 p1
      ∧ (authenticateWallet recoverAddr now2 behOk
          (authenticateWallet recoverAddr now1 behOk db0
            ⟨some w1, some s1, some m1, some ts1, f1, u1⟩).2
          ⟨some w2, some s2, some m2, some ts2, f2, u2⟩).1
        = AuthOutcome.success tok2 p2
      ∧ p1.id = p2.id
      ∧ ((authenticateWallet recoverAddr now2 behOk
          (authenticateWallet recoverAddr now1 behOk db0
            ⟨some w1, some s1, some m1, some ts1, f1, u1⟩).2
          ⟨some w2, some s2, some m2, some ts2, f2, u2⟩).2).profiles.length
        = ((authenticateWallet recoverAddr now1 behOk db0
            ⟨some w1, some s1, some m1, some ts1, f1, u1⟩).2).profiles.length := by
  have h1 := auth_success_new_user recoverAddr now1 ts1 db0 w1 s1 m1 f1 u1
    hw1 hs1 hm1 ht1 hfresh1 hrec1 hnew
  have hdb1 : (authenticateWallet recoverAddr now1 behOk db0
      ⟨some w1, some s1, some m1, some ts1, f1, u1⟩).2 =
    { profiles := db0.profiles ++
        [⟨db0.nextId, jsToLower w1, f1, u1, 0, 0, 0⟩],
      sessions := db0.sessions ++
        [⟨db0.nextId, ⟨db0.nextId, jsToLower w1, now1, now1 + sessionLifetimeMs⟩,
          jsToLower w1, now1 + sessionLifetimeMs⟩],
      nextId := db0.nextId + 1 } := by rw [h1]
  have hfind2 : (db0.profiles ++
      [(⟨db0.nextId, jsToLower w1, f1, u1, 0, 0, 0⟩ : UserProfile)]).find?
      (fun q => q.walletAddressStored == jsToLower w2) =
      some ⟨db0.nextId, jsToLower w1, f1, u1, 0, 0, 0⟩ := by
    rw [← hcase, find?_append_none _ _ _ hnew]
    simp
  have h2 := auth_success_existing_user recoverAddr now2 ts2
    { profiles := db0.profiles ++
        [⟨db0.nextId, jsToLower w1, f1, u1, 0, 0, 0⟩],
      sessions := db0.sessions ++
        [⟨db0.nextId, ⟨db0.nextId, jsToLower w1, now1, now1 + sessionLifetimeMs⟩,
          jsToLower w1, now1 + sessionLifetimeMs⟩],
      nextId := db0.nextId + 1 }
    w2 s2 m2 f2 u2 ⟨db0.nextId, jsToLower w1, f1, u1, 0, 0, 0⟩
    hw2 hs2 hm2 ht2 hfresh2 hrec2 hfind2
  refine ⟨⟨db0.nextId, jsToLower w1, now1, now1 + sessionLifetimeMs⟩,
    ⟨db0.nextId, jsToLower w1, f1, u1, 0, 0, 0⟩,
    ⟨db0.nextId, jsToLower w2, now2, now2 + sessionLifetimeMs⟩,
    applyProfileUpdate ⟨some w2, some s2, some m2, some ts2, f2, u2⟩
      ⟨db0.nextId, jsToLower w1, f1, u1, 0, 0, 0⟩
      ⟨db0.nextId, jsToLower w1, f1, u1, 0, 0, 0⟩, ?_, ?_, ?_, ?_⟩
  · rw [h1]
  · rw [hdb1, h2]
  · rw [applyProfileUpdate_id]
  · rw [hdb1, h2]
    simp

/-- C8 witness: authenticating 0xAB then 0xab against an empty store yields the
same profile id and no second profile row. -/
theorem auth_case_insensitive_same_identity_witness :
    ∃ tok1 p1 tok2 p2,
      (authenticateWallet (fun _ s => if s == "0xS1" then some "0xAB" else some "0xab")
          1000 behOk ⟨[], [], 1⟩
          ⟨some "0xAB", some "0xS1", some "m1", some 900, none, none⟩).1
        = AuthOutcome.success tok1 p1
      ∧ (authenticateWallet (fun _ s => if s == "0xS1" then some "0xAB" else some "0xab")
          2000 behOk
          (authenticateWallet (fun _ s => if s == "0xS1" then some "0xAB" else some "0xab")
            1000 behOk ⟨[], [], 1⟩
            ⟨some "0xAB", some "0xS1", some "m1", some 900, none, none⟩).2
          ⟨some "0xab", some "0xS2", some "m2", some 1900, none, none⟩).1
        = AuthOutcome.success tok2 p2
      ∧ p1.id = p2.id
      ∧ ((authenticateWallet (fun _ s => if s == "0xS1" then some "0xAB" else some "0xab")
          2000 behOk
          (authenticateWallet (fun _ s => if s == "0xS1" then some "0xAB" else some "0xab")
            1000 behOk ⟨[], [], 1⟩
            ⟨some "0xAB", some "0xS1", some "m1", some 900, none, none⟩).2
          ⟨some "0xab", some "0xS2", some "m2", some 1900, none, none⟩).2).profiles.length
        = ((authenticateWallet (fun _ s => if s == "0xS1" then some "0xAB" else some "0xab")
            1000 behOk ⟨[], [], 1⟩
            ⟨some "0xAB", some "0xS1", some "m1", some 900, none, none⟩).2).profiles.length :=
  auth_case_insensitive_same_identity
    (fun _ s => if s == "0xS1" then some "0xAB" else some "0xab")
    1000 2000 900 1900 ⟨[], [], 1⟩ "0xAB" "0xab" "0xS1" "0xS2" "m1" "m2"
    none none none none
    (by decide) (by decide) (by decide) (by decide)
    (by decide) (by decide) (by decide) (by decide)
    (by decide) (by decide) (by decide)
    ⟨"0xAB", rfl, rfl⟩ ⟨"0xab", rfl, by decide⟩ (by decide)

/-- Database behavior in which only the session insert fails. -/
def behFailSession : DbBehavior := ⟨false, false, false, true⟩

/-- C7 counterexample: the source never checks the result of the auth_sessions
insert, so when that insert fails the handler still returns a success response
with a session token while the Session Store holds no matching row — refuting
the claim that a success response implies the session row exists and that no
success is returned on a storage failure. -/
theorem auth_success_without_session_row :
    ((authenticateWallet (fun _ _ => some "0xab") 1000 behFailSession ⟨[], [], 1⟩
        ⟨some "0xab", some "0xS", some "m", some 900, none, none⟩).1 =
      AuthOutcome.success ⟨1, "0xab", 1000, 1000 + sessionLifetimeMs⟩
        ⟨1, "0xab", none, none, 0, 0, 0⟩)
    ∧ ((authenticateWallet (fun _ _ => some "0xab") 1000 behFailSession ⟨[], [], 1⟩
        ⟨some "0xab", some "0xS", some "m", some 900, none, none⟩).2).sessions
      = [] := by
  constructor <;> rfl

/-- Every run of the handler either fails leaving the store unchanged, or ends
in finishSession on an intermediate store whose sessions table is untouched. -/
theorem auth_characterize (recoverAddr : String → String → Option String)
    (now : Int) (beh : DbBehavior) (db : Db) (req : AuthRequest) :
    ((authenticateWallet recoverAddr now beh db req).2 = db
      ∧ ∃ s e, (authenticateWallet recoverAddr now beh db req).1 =
          AuthOutcome.failure s e)
    ∨ (∃ p db1, authenticateWallet recoverAddr now beh db req =
          finishSession now beh db1 (jsToLower (req.walletAddress.getD "")) p
        ∧ db1.sessions = db.sessions) := by
  unfold authenticateWallet
  dsimp only
  repeat' split
  all_goals first
    | exact Or.inl ⟨rfl, _, _, rfl⟩
    | exact Or.inr ⟨_, _, rfl, rfl⟩

/-- C7 (amended): every failure response leaves the store unchanged; when the
session insert succeeds, a success response's token is backed by a matching
session row; but the session insert's result is never checked, so when that
insert fails the service still returns a success response while the sessions
table is unchanged. -/
theorem auth_atomicity_amended (recoverAddr : String → String → Option String)
    (now : Int) (beh : DbBehavior) (db : Db) (req : AuthRequest) :
    (∀ s e, (authenticateWallet recoverAddr now beh db req).1 =
        AuthOutcome.failure s e →
      (authenticateWallet recoverAddr now beh db req).2 = db)
    ∧ (∀ tok p, beh.insertSessionFails = false →
        (authenticateWallet recoverAddr now beh db req).1 =
          AuthOutcome.success tok p →
        ∃ row, row ∈ ((authenticateWallet recoverAddr now beh db req).2).sessions
          ∧ row.sessionToken = tok)
    ∧ (beh.insertSessionFails = true →
        ((authenticateWallet recoverAddr now beh db req).2).sessions =
          db.sessions) := by
  rcases auth_characterize recoverAddr now beh db req with
    ⟨hdb, s0, e0, h1⟩ | ⟨p0, db1, heq, hs⟩
  · refine ⟨fun s e _ => hdb, fun tok p hb hsucc => ?_, fun _ => by rw [hdb]⟩
    rw [h1] at hsucc
    exact AuthOutcome.noConfusion hsucc
  · refine ⟨fun s e hf => ?_, fun tok p hb hsucc => ?_, fun hb => ?_⟩
    · rw [heq] at hf
      unfold finishSession at hf
      exact AuthOutcome.noConfusion hf
    · rw [heq] at hsucc ⊢
      unfold finishSession at hsucc ⊢
      simp only [] at hsucc ⊢
      injection hsucc with htok hp
      subst htok
      rw [if_neg (by simp [hb])]
      exact ⟨_, List.mem_append_right _ (List.mem_singleton_self _), rfl⟩
    · rw [heq]
      unfold finishSession
      simp only []
      rw [if_pos hb]
      exact hs

/-- C7 witness for the amended theorem: with a healthy database, the success
response of a concrete authenticate call is backed by a session row carrying
its token. -/
theorem auth_atomicity_amended_witness :
    ∃ row, row ∈ ((authenticateWallet (fun _ _ => some "0xab") 1000 behOk
        ⟨[], [], 1⟩
        ⟨some "0xab", some "0xS", some "m", some 900, none, none⟩).2).sessions
      ∧ row.sessionToken = ⟨1, "0xab", 1000, 1000 + sessionLifetimeMs⟩ :=
  (auth_atomicity_amended (fun _ _ => some "0xab") 1000 behOk ⟨[], [], 1⟩
      ⟨some "0xab", some "0xS", some "m", some 900, none, none⟩).2.1
    ⟨1, "0xab", 1000, 1000 + sessionLifetimeMs⟩ ⟨1, "0xab", none, none, 0, 0, 0⟩
    rfl (by decide)

end ColorClash
